import Mathlib

/-
Verification of the file chooser portal service (src/main.rs, authoritative
for the FileChooser interface, and src/service.rs for the AppChooser stub).

The embedding translates the Rust source directly:
  * zvariant values become the inductive type Value; the handler only ever
    distinguishes booleans, strings, string arrays (produced in responses)
    and every other variant kind, collapsed into a numeric tag;
  * the HashMap of options becomes an association list with first-binding
    lookup (a HashMap holds at most one binding per key, so lookup agrees);
  * the rfd dialog crate is an external dependency, modelled as an oracle
    (structure Rfd) giving, for each picker method and dialog state, the
    paths the user selects, with none meaning cancellation; every operation
    also returns the trace of picker invocations it performed;
  * the http crate Uri builder is an external dependency whose sources are
    not part of this repository; build_uri is modelled from the spec: it
    composes scheme file, authority localhost, and the given path-and-query,
    failing exactly when some character cannot appear in an RFC 3986
    path-and-query component;
  * logging is kept as a list of formatted lines so that claims about what
    is logged, and about results not depending on log-only parameters, are
    statable. Each operation is split into a pure core (the logic after the
    log statement) and a wrapper that adds the log line, mirroring the
    source where the log call is the first statement of every method.
-/

namespace Portal

/-- Dynamically typed variant values carried in a request or response map.
Booleans and strings are the kinds the handler inspects, string arrays are
the kind it produces under the uris key, and any other variant kind is
collapsed into a numeric tag. -/
inductive Value where
  | bool (b : Bool)
  | str (s : String)
  | strArray (xs : List String)
  | other (tag : Nat)
deriving DecidableEq

/-- StrMap models the HashMap from string keys to variant values as an
association list. -/
abbrev StrMap := List (String × Value)

/-- Lookup of a key, modelling HashMap get: the first binding for the key
wins (a HashMap holds at most one binding per key). -/
def mapGet (m : StrMap) (k : String) : Option Value :=
  (m.find? (fun kv => kv.1 == k)).map (fun kv => kv.2)

/-- The source expression for reading a boolean option flag, from open_file
and save_file: true exactly when the key is bound to the boolean true. -/
def flagTrue (options : StrMap) (k : String) : Bool :=
  match mapGet options k with
  | some (Value.bool true) => true
  | _ => false

/-- The source expression for reading the proposed file name in save_file:
the current_name option when it is bound to a string, otherwise none. -/
def currentName (options : StrMap) : Option String :=
  match mapGet options "current_name" with
  | some (Value.str s) => some s
  | _ => none

/-- The state of an rfd FileDialog builder; set_title and set_file_name are
the only builder methods the source uses. Paths are represented by their
lossy textual form, as the encoder only ever reads that form. -/
structure FileDialog where
  title : String
  file_name : Option String
deriving DecidableEq

/-- One invocation of the native dialog adapter: which picker method was
called, and with which dialog state. -/
inductive DialogCall where
  | pick_file (d : FileDialog)
  | pick_files (d : FileDialog)
  | pick_folder (d : FileDialog)
  | pick_folders (d : FileDialog)
  | save_file (d : FileDialog)
deriving DecidableEq

/-- The dialog adapter oracle: for each picker method of the rfd crate, the
selection the user makes for a given dialog state; none is cancellation. -/
structure Rfd where
  pick_file : FileDialog → Option String
  pick_files : FileDialog → Option (List String)
  pick_folder : FileDialog → Option String
  pick_folders : FileDialog → Option (List String)
  save_file : FileDialog → Option String

/-- The bus error values the handler can return: NotSupported for the
multiple save rejection, Failed for a URI encoding failure, each carrying
its message string. -/
inductive FdoError where
  | NotSupported (msg : String)
  | Failed (msg : String)
deriving DecidableEq

/-- Characters acceptable in the path part of a URI path-and-query
component (RFC 3986 shaped, as the spec requires of the encoder). -/
def isPathChar (c : Char) : Bool :=
  let n := c.toNat
  n == 0x21 || (0x24 ≤ n && n ≤ 0x3B) || n == 0x3D || (0x40 ≤ n && n ≤ 0x5F) ||
    (0x61 ≤ n && n ≤ 0x7A) || n == 0x7C || n == 0x7E ||
    n == 0x22 || n == 0x7B || n == 0x7D

/-- Characters acceptable in the query part of a URI path-and-query
component. -/
def isQueryChar (c : Char) : Bool :=
  let n := c.toNat
  n == 0x21 || (0x24 ≤ n && n ≤ 0x3B) || n == 0x3D || (0x3F ≤ n && n ≤ 0x7E) ||
    n == 0x22

/-- Validation walk over the characters of a candidate path-and-query: the
first question mark switches from path characters to query characters. -/
def pqValid : List Char → Bool → Bool
  | [], _ => true
  | c :: cs, inQuery =>
    if c = '?' then pqValid cs true
    else if inQuery then isQueryChar c && pqValid cs true
    else isPathChar c && pqValid cs false

/-- A string can stand as the path-and-query component of a URI. -/
def validPathAndQuery (s : String) : Bool :=
  pqValid s.toList false

/-- Modelled from the spec: the http crate (an external dependency, not part
of this repository) builds the URI from scheme file, authority localhost and
the given path-and-query text; per the URI Encoder contract it fails exactly
when the text cannot be embedded as a valid URI path-and-query component.
The error value is the description string the source later forwards. -/
def build_uri (p : String) : Except String String :=
  if validPathAndQuery p then Except.ok ("file://localhost" ++ p)
  else Except.error ("invalid uri character in " ++ p)

/-- Translation of pathbuf_to_file_uri: map build_uri over the paths and
collect into a single result, stopping at the first error, exactly as the
iterator collect into Result does in the source. -/
def pathbuf_to_file_uri : List String → Except String (List String)
  | [] => Except.ok []
  | p :: ps =>
    match build_uri p with
    | Except.error e => Except.error e
    | Except.ok u =>
      match pathbuf_to_file_uri ps with
      | Except.error e => Except.error e
      | Except.ok us => Except.ok (u :: us)

/-- The success and failure packaging shared by all three operations in the
source: encode the selected paths; on error return Failed with the encoding
error description, on success return status 0 with the uris array under the
uris key. -/
def encode_response (paths : List String) : Except FdoError (Nat × StrMap) :=
  match pathbuf_to_file_uri paths with
  | Except.error e => Except.error (FdoError.Failed e)
  | Except.ok uris => Except.ok (0, [("uris", Value.strArray uris)])

/-- Core of open_file (everything after the log statement): read the
multiple and directory flags, build the dialog from the title, invoke the
picker selected by the flags, and package the outcome. -/
def open_file_core (rfd : Rfd) (title : String) (options : StrMap) :
    Except FdoError (Nat × StrMap) × List DialogCall :=
  let dialog : FileDialog := { title := title, file_name := none }
  match flagTrue options "multiple" with
  | true =>
    match flagTrue options "directory" with
    | false =>
      match rfd.pick_files dialog with
      | some paths => (encode_response paths, [DialogCall.pick_files dialog])
      | none => (Except.ok (1, []), [DialogCall.pick_files dialog])
    | true =>
      match rfd.pick_folders dialog with
      | some paths => (encode_response paths, [DialogCall.pick_folders dialog])
      | none => (Except.ok (1, []), [DialogCall.pick_folders dialog])
  | false =>
    match flagTrue options "directory" with
    | false =>
      match rfd.pick_file dialog with
      | some path => (encode_response [path], [DialogCall.pick_file dialog])
      | none => (Except.ok (1, []), [DialogCall.pick_file dialog])
    | true =>
      match rfd.pick_folder dialog with
      | some path => (encode_response [path], [DialogCall.pick_folder dialog])
      | none => (Except.ok (1, []), [DialogCall.pick_folder dialog])

/-- The open_file operation: logs the handle and title, then runs the core.
The app id and parent window parameters are unused in the source (bound as
underscore names there). -/
def open_file (rfd : Rfd) (handle : String) (_app_id : String)
    (_parent_window : String) (title : String) (options : StrMap) :
    Except FdoError (Nat × StrMap) × List String × List DialogCall :=
  let core := open_file_core rfd title options
  (core.1, ["open_file(" ++ handle ++ ", " ++ title ++ ")"], core.2)

/-- Core of save_file: reject multiple save before any dialog is built,
otherwise build the dialog with the proposed file name and invoke the save
picker. -/
def save_file_core (rfd : Rfd) (title : String) (options : StrMap) :
    Except FdoError (Nat × StrMap) × List DialogCall :=
  match flagTrue options "multiple" with
  | true => (Except.error (FdoError.NotSupported "multiple save not supported"), [])
  | false =>
    let dialog : FileDialog := { title := title, file_name := currentName options }
    match rfd.save_file dialog with
    | some path => (encode_response [path], [DialogCall.save_file dialog])
    | none => (Except.ok (1, []), [DialogCall.save_file dialog])

/-- The save_file operation: logs the handle and title, then runs the
core. -/
def save_file (rfd : Rfd) (handle : String) (_app_id : String)
    (_parent_window : String) (title : String) (options : StrMap) :
    Except FdoError (Nat × StrMap) × List String × List DialogCall :=
  let core := save_file_core rfd title options
  (core.1, ["save_file(" ++ handle ++ ", " ++ title ++ ")"], core.2)

/-- Core of save_files: the options are ignored in the source (bound as an
underscore name); a single folder picker is invoked. -/
def save_files_core (rfd : Rfd) (title : String) :
    Except FdoError (Nat × StrMap) × List DialogCall :=
  let dialog : FileDialog := { title := title, file_name := none }
  match rfd.pick_folder dialog with
  | some path => (encode_response [path], [DialogCall.pick_folder dialog])
  | none => (Except.ok (1, []), [DialogCall.pick_folder dialog])

/-- The save_files operation: logs the handle and title, then runs the
core; its options map is ignored. -/
def save_files (rfd : Rfd) (handle : String) (_app_id : String)
    (_parent_window : String) (title : String) (_options : StrMap) :
    Except FdoError (Nat × StrMap) × List String × List DialogCall :=
  let core := save_files_core rfd title
  (core.1, ["save_files(" ++ handle ++ ", " ++ title ++ ")"], core.2)

/-- The sequence of paths the dialog adapter hands to open_file, assembled
as the source does: the multi pickers return their list as is, a single
pick is wrapped into a one element vector. -/
def open_selection (rfd : Rfd) (title : String) (options : StrMap) :
    Option (List String) :=
  let dialog : FileDialog := { title := title, file_name := none }
  match flagTrue options "multiple" with
  | true =>
    match flagTrue options "directory" with
    | false => rfd.pick_files dialog
    | true => rfd.pick_folders dialog
  | false =>
    (match flagTrue options "directory" with
     | false => rfd.pick_file dialog
     | true => rfd.pick_folder dialog).map (fun p => [p])

/-- Outcome of a call that may hit a todo: either a returned value, or an
unrecoverable panic carrying the panic message. -/
inductive CallResult (α : Type) where
  | ok (value : α)
  | panics (msg : String)
deriving DecidableEq

/-- Translation of AppChooser choose_application (src/service.rs): log the
arguments, then hit the todo macro, which panics with the standard message
and never produces a response. -/
def choose_application (handle : String) (app_id : String)
    (parent_window : String) (choices : List String) (_options : StrMap) :
    CallResult (Nat × StrMap) × List String :=
  (CallResult.panics "not yet implemented",
   ["choose_application(" ++ handle ++ ", " ++ app_id ++ ", " ++
      parent_window ++ ", " ++ String.intercalate ", " choices ++ ")"])

/-- Translation of AppChooser update_choices (src/service.rs): log the
arguments, then hit the todo macro. -/
def update_choices (handle : String) (choices : List String) :
    CallResult Unit × List String :=
  (CallResult.panics "not yet implemented",
   ["update_choices(" ++ handle ++ ", " ++ String.intercalate ", " choices ++ ")"])

/-- Demonstration adapter whose user always selects fixed paths. -/
def rfdDemo : Rfd where
  pick_file := fun _ => some "/tmp/a.txt"
  pick_files := fun _ => some ["/tmp/a.txt", "/tmp/b.txt"]
  pick_folder := fun _ => some "/home/bob"
  pick_folders := fun _ => some ["/data/one", "/data/two"]
  save_file := fun d => some ("/home/bob/" ++ d.file_name.getD "out")

/-- Demonstration adapter whose user always cancels. -/
def rfdNone : Rfd where
  pick_file := fun _ => none
  pick_files := fun _ => none
  pick_folder := fun _ => none
  pick_folders := fun _ => none
  save_file := fun _ => none

/-- Demonstration adapter whose user selects a path that cannot be encoded
as a URI (it contains a space). -/
def rfdBad : Rfd where
  pick_file := fun _ => some "/tmp/b c"
  pick_files := fun _ => some ["/tmp/a.txt", "/tmp/b c"]
  pick_folder := fun _ => some "/tmp/b c"
  pick_folders := fun _ => none
  save_file := fun _ => some "/tmp/b c"

end Portal

namespace Portal

theorem mapGet_cons_self (k : String) (v : Value) (m : StrMap) :
    mapGet ((k, v) :: m) k = some v := by
  simp [mapGet]

theorem mapGet_cons_ne (k k2 : String) (v : Value) (m : StrMap)
    (h : k ≠ k2) : mapGet ((k, v) :: m) k2 = mapGet m k2 := by
  have hbe : (k == k2) = false := beq_eq_false_iff_ne.mpr h
  simp [mapGet, List.find?, hbe]

theorem flagTrue_of_none (o : StrMap) (k : String)
    (h : mapGet o k = none) : flagTrue o k = false := by
  unfold flagTrue
  rw [h]

theorem flagTrue_of_bool (o : StrMap) (k : String) (b : Bool)
    (h : mapGet o k = some (Value.bool b)) : flagTrue o k = b := by
  unfold flagTrue
  rw [h]
  cases b <;> rfl

theorem flagTrue_of_nonbool (o : StrMap) (k : String) (v : Value)
    (h : mapGet o k = some v) (hv : ∀ b, v ≠ Value.bool b) :
    flagTrue o k = false := by
  unfold flagTrue
  rw [h]
  cases v with
  | bool b => exact absurd rfl (hv b)
  | str s => rfl
  | strArray xs => rfl
  | other t => rfl

theorem currentName_of_none (o : StrMap)
    (h : mapGet o "current_name" = none) : currentName o = none := by
  unfold currentName
  rw [h]

theorem currentName_of_nonstr (o : StrMap) (v : Value)
    (h : mapGet o "current_name" = some v) (hv : ∀ s, v ≠ Value.str s) :
    currentName o = none := by
  unfold currentName
  rw [h]
  cases v with
  | bool b => rfl
  | str s => exact absurd rfl (hv s)
  | strArray xs => rfl
  | other t => rfl

theorem build_uri_ok (p u : String) (h : build_uri p = Except.ok u) :
    u = "file://localhost" ++ p := by
  unfold build_uri at h
  by_cases hv : validPathAndQuery p = true
  · rw [if_pos hv] at h
    cases h
    rfl
  · rw [if_neg hv] at h
    cases h

theorem pathbuf_forall2 (ps us : List String)
    (h : pathbuf_to_file_uri ps = Except.ok us) :
    List.Forall₂ (fun p u => build_uri p = Except.ok u) ps us := by
  induction ps generalizing us with
  | nil =>
    unfold pathbuf_to_file_uri at h
    cases h
    exact List.Forall₂.nil
  | cons p ps ih =>
    unfold pathbuf_to_file_uri at h
    cases hb : build_uri p with
    | error e => rw [hb] at h; cases h
    | ok u =>
      rw [hb] at h
      cases hr : pathbuf_to_file_uri ps with
      | error e => rw [hr] at h; cases h
      | ok us2 =>
        rw [hr] at h
        cases h
        exact List.Forall₂.cons hb (ih us2 hr)

theorem pathbuf_append_error (ps qs : List String) (p : String) (e : String)
    (hok : ∀ x ∈ ps, (build_uri x).isOk = true)
    (he : build_uri p = Except.error e) :
    pathbuf_to_file_uri (ps ++ p :: qs) = Except.error e := by
  induction ps with
  | nil =>
    simp only [List.nil_append]
    unfold pathbuf_to_file_uri
    rw [he]
  | cons x ps ih =>
    have hx := hok x (List.mem_cons_self x ps)
    obtain ⟨u, hu⟩ : ∃ u, build_uri x = Except.ok u := by
      cases hxx : build_uri x with
      | error e2 => rw [hxx] at hx; simp [Except.isOk, Except.toBool] at hx
      | ok u => exact ⟨u, rfl⟩
    have ih2 := ih (fun y hy => hok y (List.mem_cons_of_mem x hy))
    simp only [List.cons_append]
    unfold pathbuf_to_file_uri
    rw [hu, ih2]

end Portal

namespace Portal

theorem encode_response_ok (paths : List String) (st : Nat) (m : StrMap)
    (h : encode_response paths = Except.ok (st, m)) :
    st = 0 ∧ ∃ us, m = [("uris", Value.strArray us)] ∧
      pathbuf_to_file_uri paths = Except.ok us := by
  unfold encode_response at h
  cases hp : pathbuf_to_file_uri paths with
  | error e => rw [hp] at h; cases h
  | ok us =>
    rw [hp] at h
    cases h
    exact ⟨rfl, us, rfl, rfl⟩

theorem encode_response_error (paths : List String) (err : FdoError)
    (h : encode_response paths = Except.error err) :
    ∃ e, err = FdoError.Failed e ∧ pathbuf_to_file_uri paths = Except.error e := by
  unfold encode_response at h
  cases hp : pathbuf_to_file_uri paths with
  | error e =>
    rw [hp] at h
    cases h
    exact ⟨e, rfl, rfl⟩
  | ok us => rw [hp] at h; cases h

theorem pathbuf_single (p : String) (us : List String)
    (h : pathbuf_to_file_uri [p] = Except.ok us) :
    ∃ u, us = [u] ∧ build_uri p = Except.ok u := by
  unfold pathbuf_to_file_uri at h
  cases hb : build_uri p with
  | error e => rw [hb] at h; cases h
  | ok u =>
    rw [hb] at h
    unfold pathbuf_to_file_uri at h
    cases h
    exact ⟨u, rfl, rfl⟩

theorem open_file_calls (rfd : Rfd) (handle app_id parent_window title : String)
    (options : StrMap) :
    (open_file rfd handle app_id parent_window title options).2.2 =
      [ (match flagTrue options "multiple", flagTrue options "directory" with
         | true, false => DialogCall.pick_files ⟨title, none⟩
         | true, true => DialogCall.pick_folders ⟨title, none⟩
         | false, false => DialogCall.pick_file ⟨title, none⟩
         | false, true => DialogCall.pick_folder ⟨title, none⟩) ] := by
  show (open_file_core rfd title options).2 = _
  unfold open_file_core
  cases hm : flagTrue options "multiple" <;> cases hd : flagTrue options "directory" <;>
    simp only [hm, hd] <;> split <;> rfl

theorem flagTrue_congr (o1 o2 : StrMap) (k : String)
    (h : mapGet o1 k = mapGet o2 k) : flagTrue o1 k = flagTrue o2 k := by
  unfold flagTrue
  rw [h]

theorem currentName_congr (o1 o2 : StrMap)
    (h : mapGet o1 "current_name" = mapGet o2 "current_name") :
    currentName o1 = currentName o2 := by
  unfold currentName
  rw [h]

theorem open_file_congr (rfd : Rfd) (handle app_id parent_window title : String)
    (o1 o2 : StrMap)
    (hm : flagTrue o1 "multiple" = flagTrue o2 "multiple")
    (hd : flagTrue o1 "directory" = flagTrue o2 "directory") :
    open_file rfd handle app_id parent_window title o1 =
      open_file rfd handle app_id parent_window title o2 := by
  have hc : open_file_core rfd title o1 = open_file_core rfd title o2 := by
    unfold open_file_core
    rw [hm, hd]
  unfold open_file
  rw [hc]

theorem save_file_congr (rfd : Rfd) (handle app_id parent_window title : String)
    (o1 o2 : StrMap)
    (hm : flagTrue o1 "multiple" = flagTrue o2 "multiple")
    (hc : currentName o1 = currentName o2) :
    save_file rfd handle app_id parent_window title o1 =
      save_file rfd handle app_id parent_window title o2 := by
  have hcore : save_file_core rfd title o1 = save_file_core rfd title o2 := by
    unfold save_file_core
    rw [hm, hc]
  unfold save_file
  rw [hcore]

end Portal

namespace Portal

/-- Claim C1: for every options map whose multiple and directory entries are
booleans or absent (an absent flag defaulting to false), open_file performs
exactly one dialog invocation, determined by the two flags: pick one file
for false and false, pick one directory for false and true, pick multiple
files for true and false, and pick multiple directories (never multiple
files) for true and true. -/
theorem c1_open_file_mode (rfd : Rfd) (handle app_id parent_window title : String)
    (options : StrMap) (mult dir : Bool)
    (hm : mapGet options "multiple" = some (Value.bool mult) ∨
          (mapGet options "multiple" = none ∧ mult = false))
    (hd : mapGet options "directory" = some (Value.bool dir) ∨
          (mapGet options "directory" = none ∧ dir = false)) :
    (open_file rfd handle app_id parent_window title options).2.2 =
      [ (match mult, dir with
         | false, false => DialogCall.pick_file ⟨title, none⟩
         | false, true => DialogCall.pick_folder ⟨title, none⟩
         | true, false => DialogCall.pick_files ⟨title, none⟩
         | true, true => DialogCall.pick_folders ⟨title, none⟩) ] := by
  have hm2 : flagTrue options "multiple" = mult := by
    rcases hm with h | ⟨h, hm0⟩
    · exact flagTrue_of_bool _ _ _ h
    · rw [hm0]; exact flagTrue_of_none _ _ h
  have hd2 : flagTrue options "directory" = dir := by
    rcases hd with h | ⟨h, hd0⟩
    · exact flagTrue_of_bool _ _ _ h
    · rw [hd0]; exact flagTrue_of_none _ _ h
  rw [open_file_calls, hm2, hd2]
  cases mult <;> cases dir <;> rfl

/-- Witness for claim C1 at a concrete input: with multiple and directory
both bound to true, open_file performs exactly one pick_folders call. -/
theorem c1_witness :
    (open_file rfdDemo "hdl" "app" "win" "Open"
        [("multiple", Value.bool true), ("directory", Value.bool true)]).2.2 =
      [DialogCall.pick_folders ⟨"Open", none⟩] :=
  c1_open_file_mode rfdDemo "hdl" "app" "win" "Open"
    [("multiple", Value.bool true), ("directory", Value.bool true)]
    true true (Or.inl rfl) (Or.inl rfl)

/-- Claim C2: whenever the multiple option is the boolean true, save_file
returns the distinct NotSupported error whatever the other options hold,
logs only, and never invokes the dialog adapter (its dialog trace is
empty). -/
theorem c2_save_multiple_rejected (rfd : Rfd)
    (handle app_id parent_window title : String) (options : StrMap)
    (h : mapGet options "multiple" = some (Value.bool true)) :
    save_file rfd handle app_id parent_window title options =
      (Except.error (FdoError.NotSupported "multiple save not supported"),
       ["save_file(" ++ handle ++ ", " ++ title ++ ")"], []) := by
  have hf : flagTrue options "multiple" = true := flagTrue_of_bool _ _ _ h
  have hcore : save_file_core rfd title options =
      (Except.error (FdoError.NotSupported "multiple save not supported"), []) := by
    unfold save_file_core
    rw [hf]
  unfold save_file
  rw [hcore]

/-- Witness for claim C2 at a concrete input: multiple true together with a
current_name still yields the NotSupported error and an empty dialog
trace. -/
theorem c2_witness :
    save_file rfdDemo "hdl" "app" "win" "Save"
        [("multiple", Value.bool true), ("current_name", Value.str "out.csv")] =
      (Except.error (FdoError.NotSupported "multiple save not supported"),
       ["save_file(hdl, Save)"], []) := by
  have h := c2_save_multiple_rejected rfdDemo "hdl" "app" "win" "Save"
    [("multiple", Value.bool true), ("current_name", Value.str "out.csv")] rfl
  rw [h]
  rfl

/-- Claim C3: whenever the dialog adapter returns no selection for every
picker at the dialogs the call would build (user cancellation), each of the
three operations returns successfully with status 1 and an empty result
map; for save_file this concerns the calls that reach the dialog, that is
those the multiple flag does not reject first. -/
theorem c3_cancellation (rfd : Rfd) (handle app_id parent_window title : String)
    (options : StrMap)
    (h1 : rfd.pick_file ⟨title, none⟩ = none)
    (h2 : rfd.pick_files ⟨title, none⟩ = none)
    (h3 : rfd.pick_folder ⟨title, none⟩ = none)
    (h4 : rfd.pick_folders ⟨title, none⟩ = none)
    (h5 : rfd.save_file ⟨title, currentName options⟩ = none) :
    (open_file rfd handle app_id parent_window title options).1 = Except.ok (1, []) ∧
    (flagTrue options "multiple" = false →
      (save_file rfd handle app_id parent_window title options).1 = Except.ok (1, [])) ∧
    (save_files rfd handle app_id parent_window title options).1 = Except.ok (1, []) := by
  refine ⟨?_, ?_, ?_⟩
  · show (open_file_core rfd title options).1 = _
    unfold open_file_core
    cases hm : flagTrue options "multiple" <;> cases hd : flagTrue options "directory" <;>
      simp [h1, h2, h3, h4]
  · intro hmu
    show (save_file_core rfd title options).1 = _
    unfold save_file_core
    rw [hmu]
    simp [h5]
  · show (save_files_core rfd title).1 = _
    unfold save_files_core
    simp [h3]

/-- Witness for claim C3 at a concrete input: under the always cancelling
adapter all three operations answer status 1 with an empty map. -/
theorem c3_witness :
    (open_file rfdNone "hdl" "app" "win" "Open" []).1 = Except.ok (1, []) ∧
    (save_file rfdNone "hdl" "app" "win" "Open" []).1 = Except.ok (1, []) ∧
    (save_files rfdNone "hdl" "app" "win" "Open" []).1 = Except.ok (1, []) := by
  have h := c3_cancellation rfdNone "hdl" "app" "win" "Open" [] rfl rfl rfl rfl rfl
  exact ⟨h.1, h.2.1 rfl, h.2.2⟩

/-- Claim C4: the URI encoder composes scheme file and authority localhost
with the path-and-query taken verbatim from the textual path, so every
successfully encoded path p yields the string file://localhost followed by
p, and the batch encoder maps every successfully encoded batch pointwise to
that form; in particular the ASCII path-safe path /home/alice/report.pdf
encodes exactly to file://localhost/home/alice/report.pdf. -/
theorem c4_uri_encoding :
    (∀ p u, build_uri p = Except.ok u → u = "file://localhost" ++ p) ∧
    (∀ ps us, pathbuf_to_file_uri ps = Except.ok us →
      us = ps.map (fun p => "file://localhost" ++ p)) ∧
    pathbuf_to_file_uri ["/home/alice/report.pdf"] =
      Except.ok ["file://localhost/home/alice/report.pdf"] := by
  refine ⟨fun p u h => build_uri_ok p u h, fun ps us h => ?_, rfl⟩
  have h2 := pathbuf_forall2 ps us h
  clear h
  induction h2 with
  | nil => rfl
  | cons hpu _ ih =>
    rw [List.map_cons, ih, ← build_uri_ok _ _ hpu]

/-- Witness for claim C4 at a concrete input: the first conjunct applied to
the encoding of /tmp/a.txt. -/
theorem c4_witness :
    ("file://localhost/tmp/a.txt" : String) = "file://localhost" ++ "/tmp/a.txt" :=
  c4_uri_encoding.1 "/tmp/a.txt" "file://localhost/tmp/a.txt" rfl

end Portal

namespace Portal

/-- Claim C5: every status 0 response of the three operations carries under
the uris key exactly the encodings of the paths the dialog adapter
returned, in order and of the same length; save_file and save_files return
exactly one URI on success. -/
theorem c5_success_uris :
    (∀ (rfd : Rfd) (handle app_id parent_window title : String)
        (options : StrMap) (m : StrMap),
      (open_file rfd handle app_id parent_window title options).1 =
          Except.ok (0, m) →
      ∃ paths us, open_selection rfd title options = some paths ∧
        m = [("uris", Value.strArray us)] ∧ us.length = paths.length ∧
        List.Forall₂ (fun p u => build_uri p = Except.ok u) paths us) ∧
    (∀ (rfd : Rfd) (handle app_id parent_window title : String)
        (options : StrMap) (m : StrMap),
      (save_file rfd handle app_id parent_window title options).1 =
          Except.ok (0, m) →
      ∃ path u, rfd.save_file ⟨title, currentName options⟩ = some path ∧
        m = [("uris", Value.strArray [u])] ∧ build_uri path = Except.ok u) ∧
    (∀ (rfd : Rfd) (handle app_id parent_window title : String)
        (options : StrMap) (m : StrMap),
      (save_files rfd handle app_id parent_window title options).1 =
          Except.ok (0, m) →
      ∃ path u, rfd.pick_folder ⟨title, none⟩ = some path ∧
        m = [("uris", Value.strArray [u])] ∧ build_uri path = Except.ok u) := by
  refine ⟨?_, ?_, ?_⟩
  · intro rfd handle app_id parent_window title options m h
    have h2 : (open_file_core rfd title options).1 = Except.ok (0, m) := h
    unfold open_file_core at h2
    cases hm : flagTrue options "multiple" <;> simp only [hm] at h2 <;>
      cases hd : flagTrue options "directory" <;> simp only [hd] at h2
    · cases hpf : rfd.pick_file ⟨title, none⟩ with
      | none => simp [hpf] at h2
      | some path =>
        simp only [hpf] at h2
        obtain ⟨-, us, hmm, hp⟩ := encode_response_ok [path] 0 m h2
        obtain ⟨u, rfl, hu⟩ := pathbuf_single path us hp
        exact ⟨[path], [u], by simp [open_selection, hm, hd, hpf], hmm, rfl,
          List.Forall₂.cons hu List.Forall₂.nil⟩
    · cases hpf : rfd.pick_folder ⟨title, none⟩ with
      | none => simp [hpf] at h2
      | some path =>
        simp only [hpf] at h2
        obtain ⟨-, us, hmm, hp⟩ := encode_response_ok [path] 0 m h2
        obtain ⟨u, rfl, hu⟩ := pathbuf_single path us hp
        exact ⟨[path], [u], by simp [open_selection, hm, hd, hpf], hmm, rfl,
          List.Forall₂.cons hu List.Forall₂.nil⟩
    · cases hpf : rfd.pick_files ⟨title, none⟩ with
      | none => simp [hpf] at h2
      | some paths =>
        simp only [hpf] at h2
        obtain ⟨-, us, hmm, hp⟩ := encode_response_ok paths 0 m h2
        exact ⟨paths, us, by simp [open_selection, hm, hd, hpf], hmm,
          (pathbuf_forall2 paths us hp).length_eq.symm,
          pathbuf_forall2 paths us hp⟩
    · cases hpf : rfd.pick_folders ⟨title, none⟩ with
      | none => simp [hpf] at h2
      | some paths =>
        simp only [hpf] at h2
        obtain ⟨-, us, hmm, hp⟩ := encode_response_ok paths 0 m h2
        exact ⟨paths, us, by simp [open_selection, hm, hd, hpf], hmm,
          (pathbuf_forall2 paths us hp).length_eq.symm,
          pathbuf_forall2 paths us hp⟩
  · intro rfd handle app_id parent_window title options m h
    have h2 : (save_file_core rfd title options).1 = Except.ok (0, m) := h
    unfold save_file_core at h2
    cases hm : flagTrue options "multiple" <;> simp only [hm] at h2
    · cases hsf : rfd.save_file ⟨title, currentName options⟩ with
      | none => simp [hsf] at h2
      | some path =>
        simp only [hsf] at h2
        obtain ⟨-, us, hmm, hp⟩ := encode_response_ok [path] 0 m h2
        obtain ⟨u, rfl, hu⟩ := pathbuf_single path us hp
        exact ⟨path, u, rfl, hmm, hu⟩
    · simp at h2
  · intro rfd handle app_id parent_window title options m h
    have h2 : (save_files_core rfd title).1 = Except.ok (0, m) := h
    unfold save_files_core at h2
    cases hpf : rfd.pick_folder ⟨title, none⟩ with
    | none => simp [hpf] at h2
    | some path =>
      simp only [hpf] at h2
      obtain ⟨-, us, hmm, hp⟩ := encode_response_ok [path] 0 m h2
      obtain ⟨u, rfl, hu⟩ := pathbuf_single path us hp
      exact ⟨path, u, rfl, hmm, hu⟩

/-- Witness for claim C5 at concrete inputs: each operation applied under
the demonstration adapter, whose selections are fixed. -/
theorem c5_witness :
    (∃ paths us, open_selection rfdDemo "Open" [] = some paths ∧
      ([("uris", Value.strArray ["file://localhost/tmp/a.txt"])] : StrMap) =
        [("uris", Value.strArray us)] ∧
      us.length = paths.length ∧
      List.Forall₂ (fun p u => build_uri p = Except.ok u) paths us) ∧
    (∃ path u, rfdDemo.save_file ⟨"Save", currentName []⟩ = some path ∧
      ([("uris", Value.strArray ["file://localhost/home/bob/out"])] : StrMap) =
        [("uris", Value.strArray [u])] ∧ build_uri path = Except.ok u) ∧
    (∃ path u, rfdDemo.pick_folder ⟨"Folder", none⟩ = some path ∧
      ([("uris", Value.strArray ["file://localhost/home/bob"])] : StrMap) =
        [("uris", Value.strArray [u])] ∧ build_uri path = Except.ok u) :=
  ⟨c5_success_uris.1 rfdDemo "hdl" "app" "win" "Open" []
      [("uris", Value.strArray ["file://localhost/tmp/a.txt"])] rfl,
   c5_success_uris.2.1 rfdDemo "hdl" "app" "win" "Save" []
      [("uris", Value.strArray ["file://localhost/home/bob/out"])] rfl,
   c5_success_uris.2.2 rfdDemo "hdl" "app" "win" "Folder" []
      [("uris", Value.strArray ["file://localhost/home/bob"])] rfl⟩

/-- Claim C6: in a batch encoding the first path that fails aborts the
whole batch with that failure and no partial result, and an open_file call
whose selected paths fail to encode returns the generic Failed error
carrying the encoding error description instead of any success response. -/
theorem c6_first_failure_aborts :
    (∀ (ps qs : List String) (p e : String),
      (∀ x ∈ ps, (build_uri x).isOk = true) → build_uri p = Except.error e →
      pathbuf_to_file_uri (ps ++ p :: qs) = Except.error e) ∧
    (∀ (rfd : Rfd) (handle app_id parent_window title : String)
        (options : StrMap) (paths : List String) (e : String),
      open_selection rfd title options = some paths →
      pathbuf_to_file_uri paths = Except.error e →
      (open_file rfd handle app_id parent_window title options).1 =
        Except.error (FdoError.Failed e)) := by
  constructor
  · exact fun ps qs p e hok he => pathbuf_append_error ps qs p e hok he
  · intro rfd handle app_id parent_window title options paths e hsel hp
    show (open_file_core rfd title options).1 = _
    unfold open_file_core
    unfold open_selection at hsel
    cases hm : flagTrue options "multiple" <;> simp only [hm] at hsel ⊢ <;>
      cases hd : flagTrue options "directory" <;> simp only [hd] at hsel ⊢
    · rcases Option.map_eq_some'.mp hsel with ⟨p0, hp0, hpaths⟩
      cases hpaths
      simp only [hp0]
      show encode_response [p0] = _
      unfold encode_response
      rw [hp]
    · rcases Option.map_eq_some'.mp hsel with ⟨p0, hp0, hpaths⟩
      cases hpaths
      simp only [hp0]
      show encode_response [p0] = _
      unfold encode_response
      rw [hp]
    · simp only [hsel]
      show encode_response paths = _
      unfold encode_response
      rw [hp]
    · simp only [hsel]
      show encode_response paths = _
      unfold encode_response
      rw [hp]

/-- Witness for claim C6 at a concrete input: a batch whose second path
holds a space fails whole with that path's encoding error, and an open call
selecting such a path returns the Failed error. -/
theorem c6_witness :
    pathbuf_to_file_uri ["/tmp/a.txt", "/tmp/b c", "/tmp/x"] =
      Except.error "invalid uri character in /tmp/b c" ∧
    (open_file rfdBad "hdl" "app" "win" "Open" []).1 =
      Except.error (FdoError.Failed "invalid uri character in /tmp/b c") := by
  constructor
  · exact c6_first_failure_aborts.1 ["/tmp/a.txt"] ["/tmp/x"] "/tmp/b c"
      "invalid uri character in /tmp/b c" (by decide) rfl
  · exact c6_first_failure_aborts.2 rfdBad "hdl" "app" "win" "Open" []
      ["/tmp/b c"] "invalid uri character in /tmp/b c" rfl rfl

end Portal

namespace Portal

/-- Claim C7: option parsing is lenient: a value of the wrong variant type
under a recognized key behaves exactly like the key being absent, for the
multiple and directory booleans of open_file and the multiple boolean and
current_name string of save_file; in particular save_file under a
non-boolean multiple value proceeds to invoke the save dialog rather than
erroring. -/
theorem c7_lenient_options (rfd : Rfd) (handle app_id parent_window title : String)
    (options : StrMap) (vb vs : Value)
    (hvb : ∀ b, vb ≠ Value.bool b) (hvs : ∀ s, vs ≠ Value.str s) :
    (mapGet options "multiple" = none →
      open_file rfd handle app_id parent_window title (("multiple", vb) :: options) =
        open_file rfd handle app_id parent_window title options) ∧
    (mapGet options "directory" = none →
      open_file rfd handle app_id parent_window title (("directory", vb) :: options) =
        open_file rfd handle app_id parent_window title options) ∧
    (mapGet options "multiple" = none →
      save_file rfd handle app_id parent_window title (("multiple", vb) :: options) =
        save_file rfd handle app_id parent_window title options) ∧
    (mapGet options "current_name" = none →
      save_file rfd handle app_id parent_window title (("current_name", vs) :: options) =
        save_file rfd handle app_id parent_window title options) ∧
    (save_file rfd handle app_id parent_window title (("multiple", vb) :: options)).2.2 =
      [DialogCall.save_file ⟨title, currentName (("multiple", vb) :: options)⟩] := by
  have fMul : flagTrue (("multiple", vb) :: options) "multiple" = false :=
    flagTrue_of_nonbool _ _ _ (mapGet_cons_self _ _ _) hvb
  have fDir : flagTrue (("directory", vb) :: options) "directory" = false :=
    flagTrue_of_nonbool _ _ _ (mapGet_cons_self _ _ _) hvb
  refine ⟨?_, ?_, ?_, ?_, ?_⟩
  · intro h
    refine open_file_congr rfd handle app_id parent_window title _ _ ?_ ?_
    · rw [fMul, flagTrue_of_none _ _ h]
    · exact flagTrue_congr _ _ _
        (mapGet_cons_ne "multiple" "directory" _ _ (by decide))
  · intro h
    refine open_file_congr rfd handle app_id parent_window title _ _ ?_ ?_
    · exact flagTrue_congr _ _ _
        (mapGet_cons_ne "directory" "multiple" _ _ (by decide))
    · rw [fDir, flagTrue_of_none _ _ h]
  · intro h
    refine save_file_congr rfd handle app_id parent_window title _ _ ?_ ?_
    · rw [fMul, flagTrue_of_none _ _ h]
    · exact currentName_congr _ _
        (mapGet_cons_ne "multiple" "current_name" _ _ (by decide))
  · intro h
    refine save_file_congr rfd handle app_id parent_window title _ _ ?_ ?_
    · exact flagTrue_congr _ _ _
        (mapGet_cons_ne "current_name" "multiple" _ _ (by decide))
    · rw [currentName_of_nonstr _ _ (mapGet_cons_self _ _ _) hvs,
        currentName_of_none _ h]
  · show (save_file_core rfd title (("multiple", vb) :: options)).2 = _
    unfold save_file_core
    simp only [fMul]
    split <;> rfl

/-- Witness for claim C7 at a concrete input: a string value under multiple
behaves exactly as an empty options map, and save_file still invokes the
save dialog. -/
theorem c7_witness :
    open_file rfdDemo "hdl" "app" "win" "T" [("multiple", Value.str "yes")] =
      open_file rfdDemo "hdl" "app" "win" "T" [] ∧
    save_file rfdDemo "hdl" "app" "win" "T" [("multiple", Value.str "yes")] =
      save_file rfdDemo "hdl" "app" "win" "T" [] ∧
    (save_file rfdDemo "hdl" "app" "win" "T" [("multiple", Value.str "yes")]).2.2 =
      [DialogCall.save_file ⟨"T", none⟩] := by
  have h := c7_lenient_options rfdDemo "hdl" "app" "win" "T" []
    (Value.str "yes") (Value.bool true) (fun b h => Value.noConfusion h)
    (fun s h => Value.noConfusion h)
  exact ⟨h.1 rfl, h.2.2.1 rfl, h.2.2.2.2⟩

/-- Claim C8: both AppChooser operations log their arguments and then fail
unrecoverably with the todo panic; neither ever returns a normal response,
for any arguments. -/
theorem c8_appchooser_unimplemented :
    (∀ (handle app_id parent_window : String) (choices : List String)
        (options : StrMap),
      (choose_application handle app_id parent_window choices options).1 =
        CallResult.panics "not yet implemented" ∧
      (choose_application handle app_id parent_window choices options).2 ≠ [] ∧
      ∀ r, (choose_application handle app_id parent_window choices options).1 ≠
        CallResult.ok r) ∧
    (∀ (handle : String) (choices : List String),
      (update_choices handle choices).1 = CallResult.panics "not yet implemented" ∧
      (update_choices handle choices).2 ≠ [] ∧
      ∀ r, (update_choices handle choices).1 ≠ CallResult.ok r) := by
  constructor
  · intro handle app_id parent_window choices options
    exact ⟨rfl, fun h => List.noConfusion h, fun r h => CallResult.noConfusion h⟩
  · intro handle choices
    exact ⟨rfl, fun h => List.noConfusion h, fun r h => CallResult.noConfusion h⟩

/-- Claim C9: the returned status, result map and dialog behavior of each
FileChooser operation do not depend on the handle, app id or parent window
arguments; two calls agreeing on adapter, title and options agree on result
and dialog trace whatever those three arguments are. -/
theorem c9_log_params_not_semantic (rfd : Rfd) (title : String) (options : StrMap)
    (h1 a1 w1 h2 a2 w2 : String) :
    ((open_file rfd h1 a1 w1 title options).1 =
        (open_file rfd h2 a2 w2 title options).1 ∧
      (open_file rfd h1 a1 w1 title options).2.2 =
        (open_file rfd h2 a2 w2 title options).2.2) ∧
    ((save_file rfd h1 a1 w1 title options).1 =
        (save_file rfd h2 a2 w2 title options).1 ∧
      (save_file rfd h1 a1 w1 title options).2.2 =
        (save_file rfd h2 a2 w2 title options).2.2) ∧
    ((save_files rfd h1 a1 w1 title options).1 =
        (save_files rfd h2 a2 w2 title options).1 ∧
      (save_files rfd h1 a1 w1 title options).2.2 =
        (save_files rfd h2 a2 w2 title options).2.2) :=
  ⟨⟨rfl, rfl⟩, ⟨rfl, rfl⟩, ⟨rfl, rfl⟩⟩

/-- Claim C10: every non-error return of the three operations has status 0
with a result map holding exactly the uris key, or status 1 with an empty
result map; no other status or key shape occurs. -/
theorem c10_status_and_result_shape :
    (∀ (rfd : Rfd) (handle app_id parent_window title : String)
        (options : StrMap) (st : Nat) (m : StrMap),
      (open_file rfd handle app_id parent_window title options).1 =
          Except.ok (st, m) →
      (st = 0 ∧ ∃ us, m = [("uris", Value.strArray us)]) ∨ (st = 1 ∧ m = [])) ∧
    (∀ (rfd : Rfd) (handle app_id parent_window title : String)
        (options : StrMap) (st : Nat) (m : StrMap),
      (save_file rfd handle app_id parent_window title options).1 =
          Except.ok (st, m) →
      (st = 0 ∧ ∃ us, m = [("uris", Value.strArray us)]) ∨ (st = 1 ∧ m = [])) ∧
    (∀ (rfd : Rfd) (handle app_id parent_window title : String)
        (options : StrMap) (st : Nat) (m : StrMap),
      (save_files rfd handle app_id parent_window title options).1 =
          Except.ok (st, m) →
      (st = 0 ∧ ∃ us, m = [("uris", Value.strArray us)]) ∨ (st = 1 ∧ m = [])) := by
  refine ⟨?_, ?_, ?_⟩
  · intro rfd handle app_id parent_window title options st m h
    have h2 : (open_file_core rfd title options).1 = Except.ok (st, m) := h
    unfold open_file_core at h2
    cases hm : flagTrue options "multiple" <;> simp only [hm] at h2 <;>
      cases hd : flagTrue options "directory" <;> simp only [hd] at h2
    · cases hpf : rfd.pick_file ⟨title, none⟩ with
      | none =>
        simp only [hpf] at h2
        have h3 : ((1 : Nat), ([] : StrMap)) = (st, m) := Except.ok.inj h2
        exact Or.inr ⟨(congrArg Prod.fst h3).symm, (congrArg Prod.snd h3).symm⟩
      | some path =>
        simp only [hpf] at h2
        obtain ⟨hst, us, hmm, -⟩ := encode_response_ok [path] st m h2
        exact Or.inl ⟨hst, us, hmm⟩
    · cases hpf : rfd.pick_folder ⟨title, none⟩ with
      | none =>
        simp only [hpf] at h2
        have h3 : ((1 : Nat), ([] : StrMap)) = (st, m) := Except.ok.inj h2
        exact Or.inr ⟨(congrArg Prod.fst h3).symm, (congrArg Prod.snd h3).symm⟩
      | some path =>
        simp only [hpf] at h2
        obtain ⟨hst, us, hmm, -⟩ := encode_response_ok [path] st m h2
        exact Or.inl ⟨hst, us, hmm⟩
    · cases hpf : rfd.pick_files ⟨title, none⟩ with
      | none =>
        simp only [hpf] at h2
        have h3 : ((1 : Nat), ([] : StrMap)) = (st, m) := Except.ok.inj h2
        exact Or.inr ⟨(congrArg Prod.fst h3).symm, (congrArg Prod.snd h3).symm⟩
      | some paths =>
        simp only [hpf] at h2
        obtain ⟨hst, us, hmm, -⟩ := encode_response_ok paths st m h2
        exact Or.inl ⟨hst, us, hmm⟩
    · cases hpf : rfd.pick_folders ⟨title, none⟩ with
      | none =>
        simp only [hpf] at h2
        have h3 : ((1 : Nat), ([] : StrMap)) = (st, m) := Except.ok.inj h2
        exact Or.inr ⟨(congrArg Prod.fst h3).symm, (congrArg Prod.snd h3).symm⟩
      | some paths =>
        simp only [hpf] at h2
        obtain ⟨hst, us, hmm, -⟩ := encode_response_ok paths st m h2
        exact Or.inl ⟨hst, us, hmm⟩
  · intro rfd handle app_id parent_window title options st m h
    have h2 : (save_file_core rfd title options).1 = Except.ok (st, m) := h
    unfold save_file_core at h2
    cases hm : flagTrue options "multiple" <;> simp only [hm] at h2
    · cases hsf : rfd.save_file ⟨title, currentName options⟩ with
      | none =>
        simp only [hsf] at h2
        have h3 : ((1 : Nat), ([] : StrMap)) = (st, m) := Except.ok.inj h2
        exact Or.inr ⟨(congrArg Prod.fst h3).symm, (congrArg Prod.snd h3).symm⟩
      | some path =>
        simp only [hsf] at h2
        obtain ⟨hst, us, hmm, -⟩ := encode_response_ok [path] st m h2
        exact Or.inl ⟨hst, us, hmm⟩
    · exact Except.noConfusion h2
  · intro rfd handle app_id parent_window title options st m h
    have h2 : (save_files_core rfd title).1 = Except.ok (st, m) := h
    unfold save_files_core at h2
    cases hpf : rfd.pick_folder ⟨title, none⟩ with
    | none =>
      simp only [hpf] at h2
      have h3 : ((1 : Nat), ([] : StrMap)) = (st, m) := Except.ok.inj h2
      exact Or.inr ⟨(congrArg Prod.fst h3).symm, (congrArg Prod.snd h3).symm⟩
    | some path =>
      simp only [hpf] at h2
      obtain ⟨hst, us, hmm, -⟩ := encode_response_ok [path] st m h2
      exact Or.inl ⟨hst, us, hmm⟩

/-- Witness for claim C10 at a concrete input: a cancelled open_file call
lands in the status 1, empty map disjunct. -/
theorem c10_witness :
    ((1 : Nat) = 0 ∧ ∃ us, ([] : StrMap) = [("uris", Value.strArray us)]) ∨
      ((1 : Nat) = 1 ∧ ([] : StrMap) = []) :=
  c10_status_and_result_shape.1 rfdNone "hdl" "app" "win" "Open" [] 1 [] rfl

end Portal
